import Mathlib

/-!
Shallow embedding of the cameo capture/filter subsystem
(src/ch3/cameo/managers.py, utils.py, filters.py).

External OpenCV collaborators (grab, retrieve, VideoWriter, imshow,
imwrite, medianBlur, cvtColor, Laplacian, filter2D) are modelled as
explicit inputs or as opaque function parameters; `time.time()` becomes
an explicit `now : ℚ` argument.  Python floats are modelled as rationals
(NaN as `Option.none` where it matters); machine integers stay `ℕ`/`ℤ`
with explicit clamping where the code clamps.
-/

namespace Cameo

/-- Abstract pixel-buffer identity: which frame a grab/retrieve produced.
The capture-lifecycle claims depend only on which buffers flow where,
never on pixel contents. -/
abbrev Frame := ℕ

/-- The external capture device, as far as `CaptureManager` queries it:
`cv2.CAP_PROP_FPS`, `cv2.CAP_PROP_FRAME_WIDTH`, `cv2.CAP_PROP_FRAME_HEIGHT`. -/
structure CaptureDev where
  fps : ℚ
  width : ℤ
  height : ℤ
deriving DecidableEq, Repr

/-- The external `cv2.VideoWriter`: its construction parameters are fixed
at creation; `frames` records the sequence of buffers passed to `write`. -/
structure VideoWriter where
  filename : String
  encoding : ℤ
  fps : ℚ
  size : ℤ × ℤ
  frames : List Frame
deriving DecidableEq, Repr

/-- Append one frame, as `cv2.VideoWriter.write` does. -/
def VideoWriter.write (w : VideoWriter) (f : Frame) : VideoWriter :=
  { w with frames := w.frames ++ [f] }

/-- The mutable fields of `CaptureManager` (managers.py `__init__`).
`previewWindowManager` / `shouldMirrorPreview` only drive the external
`imshow` call in `exitFrame`, which mutates no manager state, so they are
omitted from the state record. -/
structure CaptureState where
  channel : ℤ
  enteredFrame : Bool
  frame : Option Frame
  imageFilename : Option String
  videoFilename : Option String
  videoEncoding : Option ℤ
  videoWriter : Option VideoWriter
  startTime : Option ℚ
  framesElapsed : ℕ
  fpsEstimate : Option ℚ
deriving DecidableEq, Repr

/-- `CaptureManager.__init__`. -/
def initState : CaptureState :=
  { channel := 0, enteredFrame := false, frame := none, imageFilename := none,
    videoFilename := none, videoEncoding := none, videoWriter := none,
    startTime := none, framesElapsed := 0, fpsEstimate := none }

/-- `CaptureManager.channel` setter: only a genuinely new value is stored,
and storing it invalidates the cached frame. -/
def setChannel (value : ℤ) (s : CaptureState) : CaptureState :=
  if s.channel ≠ value then { s with channel := value, frame := none } else s

/-- The assertion message of `enterFrame` (the ProtocolViolation). -/
def protocolViolationMsg : String :=
  "previous enterFrame() had no matching exitFrame()"

/-- `CaptureManager.enterFrame`: asserts the previous frame was exited,
then sets `_enteredFrame` to the outcome of `self._capture.grab()`
(passed in as `grabOk`; the manager is always constructed with a capture,
so the `self._capture is not None` guard is satisfied). -/
def enterFrame (grabOk : Bool) (s : CaptureState) : Except String CaptureState :=
  if s.enteredFrame then .error protocolViolationMsg
  else .ok { s with enteredFrame := grabOk }

/-- The `CaptureManager.frame` property: when inside an entered cycle with
no cached frame, `self._capture.retrieve` is attempted (its outcome passed
in as `retr`) and cached — even a failed retrieve stores `none`.  Returns
the observed frame together with the updated state. -/
def frameProp (retr : Option Frame) (s : CaptureState) :
    Option Frame × CaptureState :=
  if s.enteredFrame ∧ s.frame = none then (retr, { s with frame := retr })
  else (s.frame, s)

/-- `CaptureManager._writeVideoFrame`, with the device queries explicit. -/
def writeVideoFrame (cap : CaptureDev) (f : Frame) (s : CaptureState) :
    CaptureState :=
  match s.videoFilename with
  | none => s
  | some fn =>
    match s.videoWriter with
    | some w => { s with videoWriter := some (w.write f) }
    | none =>
      let fps := cap.fps
      if fps ≤ 0 ∧ s.framesElapsed < 20 then
        -- FPS unknown and the estimate is not yet stable: drop the frame.
        s
      else
        let fps' := if fps ≤ 0 then s.fpsEstimate.getD 0 else fps
        let w0 : VideoWriter :=
          { filename := fn, encoding := s.videoEncoding.getD 0, fps := fps',
            size := (cap.width, cap.height), frames := [] }
        { s with videoWriter := some (w0.write f) }

/-- `CaptureManager.exitFrame`.  `retr` is the retrieve outcome should the
`frame` property need one, `now` is `time.time()`.  The preview `imshow`
and the snapshot `imwrite` are external effects; only the clearing of the
pending image filename touches manager state.  The rational division
models the Python float quotient `framesElapsed / timeElapsed`. -/
def exitFrame (retr : Option Frame) (now : ℚ) (cap : CaptureDev)
    (s : CaptureState) : CaptureState :=
  match frameProp retr s with
  | (none, s') => { s' with enteredFrame := false }
  | (some f, s') =>
    let est : ℚ := (s'.framesElapsed : ℚ) / (now - s'.startTime.getD 0)
    let s2 :=
      if s'.framesElapsed = 0 then { s' with startTime := some now }
      else { s' with fpsEstimate := some est }
    let s3 := { s2 with framesElapsed := s2.framesElapsed + 1 }
    let s4 := if s3.imageFilename.isSome then { s3 with imageFilename := none }
              else s3
    let s5 := writeVideoFrame cap f s4
    { s5 with frame := none, enteredFrame := false }

/-- `CaptureManager.writeImage`. -/
def writeImage (filename : String) (s : CaptureState) : CaptureState :=
  { s with imageFilename := some filename }

/-- `CaptureManager.startWritingVideo`: arms recording; touches no encoder. -/
def startWritingVideo (filename : String) (encoding : ℤ) (s : CaptureState) :
    CaptureState :=
  { s with videoFilename := some filename, videoEncoding := some encoding }

/-- `CaptureManager.stopWritingVideo`. -/
def stopWritingVideo (s : CaptureState) : CaptureState :=
  { s with videoFilename := none, videoEncoding := none, videoWriter := none }

/-- One control-loop iteration: `enterFrame` then `exitFrame`, with the
grab outcome, retrieve outcome and clock reading for that iteration. -/
def cycle (cap : CaptureDev) (grabOk : Bool) (retr : Option Frame) (now : ℚ)
    (s : CaptureState) : Except String CaptureState := do
  let s1 ← enterFrame grabOk s
  pure (exitFrame retr now cap s1)

/-- `n` iterations in which every grab succeeds and the retrieve of
iteration `k` yields buffer `f k` at clock reading `t k`. -/
def runCycles (cap : CaptureDev) (f : ℕ → Frame) (t : ℕ → ℚ)
    (s0 : CaptureState) : ℕ → Except String CaptureState
  | 0 => .ok s0
  | n + 1 => do
    let s ← runCycles cap f t s0 n
    cycle cap true (some (f n)) (t n) s

/-- Start timestamp of a recording session that has completed `n` cycles:
stamped on the first processed frame. -/
def pendingStart (t : ℕ → ℚ) (n : ℕ) : Option ℚ :=
  if n = 0 then none else some (t 0)

/-- Fps estimate after `n` cycles at clock readings `t`: first computed on
the second processed frame, as `framesElapsed / (now - startTime)`. -/
def pendingFps (t : ℕ → ℚ) (n : ℕ) : Option ℚ :=
  if n ≤ 1 then none else some (((n - 1 : ℕ) : ℚ) / (t (n - 1) - t 0))

/-- The manager state after `n` full cycles of a session armed from frame
0 against a source of unknown rate, while the encoder is still pending:
no writer, `n` frames counted, nothing buffered. -/
def pendingAt (fn : String) (enc : ℤ) (t : ℕ → ℚ) (n : ℕ) : CaptureState :=
  { channel := 0, enteredFrame := false, frame := none, imageFilename := none,
    videoFilename := some fn, videoEncoding := some enc, videoWriter := none,
    startTime := pendingStart t n, framesElapsed := n,
    fpsEstimate := pendingFps t n }

/-- The encoder that the 20th cycle of an armed unknown-rate session
constructs: the armed filename and encoding, the accumulated estimate
`19 / (t 19 - t 0)` as rate, the device's frame size, and frame 19 as the
only content. -/
def builtWriter (fn : String) (enc : ℤ) (cap : CaptureDev) (t : ℕ → ℚ)
    (f : ℕ → Frame) : VideoWriter :=
  { filename := fn, encoding := enc, fps := (19 : ℚ) / (t 19 - t 0),
    size := (cap.width, cap.height), frames := [f 19] }

/-!
utils.py.  Curve functions are Python callables over floats; a float is
modelled as `Option ℚ`, `none` standing for NaN (what
`scipy.interpolate.interp1d(..., bounds_error = False)` returns outside
the control-point domain).
-/

/-- A Python float: a rational, or NaN. -/
abbrev PyFloat := Option ℚ

/-- Python `max(a, b)` with `a` a number and `b` possibly NaN: the running
maximum starts at `a` and is replaced only when `b > a`, which is false
for NaN. -/
def pyMax (a : ℚ) (b : PyFloat) : ℚ :=
  match b with
  | none => a
  | some x => if a < x then x else a

/-- Python `min(a, b)` on numbers: `b` replaces `a` only when `b < a`. -/
def pyMin (a b : ℚ) : ℚ :=
  if b < a then b else a

/-- `utils.createLookupArray`: absent function gives an absent array;
otherwise entry `i` is `min(max(0, func(i)), length - 1)`. -/
def createLookupArray (func : Option (PyFloat → PyFloat)) (length : ℕ) :
    Option (List ℚ) :=
  match func with
  | none => none
  | some f =>
    some ((List.range length).map fun i =>
      pyMin (pyMax 0 (f (some (i : ℚ)))) ((length : ℚ) - 1))

/-- `utils.createCompositeFunc`: either function may be absent; when both
are present the result applies `func1` first, then `func0`. -/
def createCompositeFunc {α : Type} (func0 func1 : Option (α → α)) :
    Option (α → α) :=
  match func0 with
  | none => func1
  | some f0 =>
    match func1 with
    | none => some f0
    | some f1 => some fun x => f0 (f1 x)

/-- The interpolation kinds `createCurveFunc` selects by point count. -/
inductive InterpKind where
  | linear
  | quadratic
  | cubic
deriving DecidableEq, Repr

/-- The external `scipy.interpolate.interp1d` object, modelled as the data
its constructor captures (the xs, the ys, the chosen kind); evaluation is
the external library's business. -/
structure Interp1d where
  xs : List ℚ
  ys : List ℚ
  kind : InterpKind
deriving DecidableEq, Repr

/-- `utils.createCurveFunc`: `none` points or fewer than 2 points give an
absent curve; otherwise the points are handed to the interpolator
unchecked, the kind chosen by count (2 → linear, 3 → quadratic,
≥ 4 → cubic). -/
def createCurveFunc (points : Option (List (ℚ × ℚ))) : Option Interp1d :=
  match points with
  | none => none
  | some pts =>
    if pts.length < 2 then none
    else
      let kind :=
        if pts.length < 3 then InterpKind.linear
        else if pts.length < 4 then InterpKind.quadratic
        else InterpKind.cubic
      some { xs := pts.map Prod.fst, ys := pts.map Prod.snd, kind := kind }

/-!
filters.py.
-/

/-- `BGRFuncFilter`'s state: the three per-channel lookup arrays, built
once at construction. -/
structure BGRFuncFilter where
  bLookupArray : Option (List ℚ)
  gLookupArray : Option (List ℚ)
  rLookupArray : Option (List ℚ)
deriving DecidableEq, Repr

/-- `BGRFuncFilter.__init__` with `dtype = uint8`, so
`length = iinfo(uint8).max + 1 = 256`: each channel's table comes from the
composite of the channel function with the shared value function. -/
def mkBGRFuncFilter (vFunc bFunc gFunc rFunc : Option (PyFloat → PyFloat)) :
    BGRFuncFilter :=
  { bLookupArray := createLookupArray (createCompositeFunc bFunc vFunc) 256,
    gLookupArray := createLookupArray (createCompositeFunc gFunc vFunc) 256,
    rLookupArray := createLookupArray (createCompositeFunc rFunc vFunc) 256 }

/-- A single-channel image of unbounded extent (the opaque cv2 primitives
in `strokeEdges` are modelled as function parameters, so no finite-domain
bookkeeping is needed there); values are uint8 in practice. -/
abbrev GrayImg := ℕ → ℕ → ℕ

/-- A three-channel (BGR) image: channel, row, column. -/
abbrev BGRImg := Fin 3 → ℕ → ℕ → ℕ

/-- The numpy store of a float into a uint8 array slot: truncate toward
zero, wrap mod 256 (the values fed in here are nonnegative). -/
def u8ofRat (q : ℚ) : ℕ :=
  (Int.toNat ⌊q⌋) % 256

/-- The external cv2 primitives `strokeEdges` calls, as opaque
parameters: `medianBlur src ksize`, `cvtColor src COLOR_BGR2GRAY`, and
`Laplacian gray CV_8U ksize`. -/
structure CVPrims where
  medianBlur : BGRImg → ℕ → BGRImg
  cvtColorBGR2GRAY : BGRImg → GrayImg
  laplacian : GrayImg → ℕ → GrayImg

/-- `filters.strokeEdges`: blur only when `blurKsize ≥ 3`, grayscale,
Laplacian in place, inverse-alpha map `(1/255) * (255 - edge)`, then each
channel of the ORIGINAL source scaled by the alpha map and merged into the
destination (the destination is fully overwritten, so it is the return
value here). -/
def strokeEdges (cv : CVPrims) (src : BGRImg) (blurKsize : ℕ)
    (edgeKsize : ℕ) : BGRImg :=
  let graySrc :=
    if 3 ≤ blurKsize then cv.cvtColorBGR2GRAY (cv.medianBlur src blurKsize)
    else cv.cvtColorBGR2GRAY src
  let edges := cv.laplacian graySrc edgeKsize
  let normalizedInverseAlpha : ℕ → ℕ → ℚ :=
    fun r c => (1 / 255) * (255 - (edges r c : ℚ))
  fun ch r c => u8ofRat ((src ch r c : ℚ) * normalizedInverseAlpha r c)

/-- A finite image for the convolution filters: dimensions plus pixel
function (only indices below the dimensions are meaningful). -/
structure Img where
  h : ℕ
  w : ℕ
  pix : ℕ → ℕ → ℕ

/-- OpenCV's default `BORDER_REFLECT_101` index extrapolation for a
single reflection (exact for |overshoot| < n, which covers a 3×3 kernel
on any image with n ≥ 2; the final clamp keeps degenerate sizes
in range). -/
def borderReflect101 (n : ℕ) (i : ℤ) : ℕ :=
  min (n - 1) (if i < 0 then (-i).toNat
               else if (n : ℤ) ≤ i then (2 * ((n : ℤ) - 1) - i).toNat
               else i.toNat)

/-- OpenCV's `saturate_cast<uchar>` of an integer sum. -/
def satU8 (z : ℤ) : ℕ :=
  (min 255 (max 0 z)).toNat

/-- `cv2.filter2D(src, -1, kernel, dst)` with the default centre anchor
and `BORDER_REFLECT_101`: a correlation of the kernel with the source,
each output saturated to uint8.  This is `VConvolutionFilter.apply`
specialised to an integer kernel. -/
def filter2D (src : Img) (kernel : List (List ℤ)) : Img :=
  let kh := kernel.length
  let kw := (kernel.headD []).length
  let ay := kh / 2
  let ax := kw / 2
  { h := src.h, w := src.w,
    pix := fun r c =>
      satU8 (((List.range kh).map fun i =>
        ((List.range kw).map fun j =>
          ((kernel.getD i []).getD j 0) *
            ((src.pix (borderReflect101 src.h ((r : ℤ) + i - ay))
                      (borderReflect101 src.w ((c : ℤ) + j - ax))) : ℤ)).sum).sum) }

/-- `SharpenFilter.__init__`'s kernel. -/
def sharpenKernel : List (List ℤ) :=
  [[-1, -1, -1], [-1, 9, -1], [-1, -1, -1]]

/-- `SharpenFilter().apply(src, dst)` (through `VConvolutionFilter.apply`,
which is `cv2.filter2D` with the stored kernel). -/
def sharpenApply (src : Img) : Img :=
  filter2D src sharpenKernel

/-!
Theorems.
-/

/-- C2 counterexample: from a fresh manager, an `enterFrame` whose grab
FAILS leaves `_enteredFrame` false, so an immediately following second
`enterFrame` passes the assertion and succeeds — the claimed
ProtocolViolation does not occur. -/
theorem enterFrame_twice_after_failed_grab_succeeds :
    (enterFrame false initState).bind (enterFrame true) =
      Except.ok { initState with enteredFrame := true } := rfl

/-- C2 (amended): an immediate second `enterFrame` fails with the
ProtocolViolation assertion exactly when the first call's grab succeeded;
after a failed grab `_enteredFrame` stays false and the second call
passes the assertion and simply grabs again. -/
theorem enterFrame_twice_spec (s : CaptureState) (g2 : Bool)
    (h : s.enteredFrame = false) :
    (enterFrame true s = .ok { s with enteredFrame := true } ∧
      enterFrame g2 { s with enteredFrame := true } =
        .error protocolViolationMsg) ∧
    (enterFrame false s = .ok { s with enteredFrame := false } ∧
      enterFrame g2 { s with enteredFrame := false } =
        .ok { s with enteredFrame := g2 }) := by
  simp [enterFrame, h]

/-- Witness for C2's amended theorem at the fresh manager state. -/
theorem enterFrame_twice_spec_witness :
    initState.enteredFrame = false ∧
    ((enterFrame true initState =
        .ok { initState with enteredFrame := true } ∧
      enterFrame true { initState with enteredFrame := true } =
        .error protocolViolationMsg) ∧
    (enterFrame false initState =
        .ok { initState with enteredFrame := false } ∧
      enterFrame true { initState with enteredFrame := false } =
        .ok { initState with enteredFrame := true } )) :=
  ⟨rfl, enterFrame_twice_spec initState true rfl⟩

/-- C3: when the observed frame is absent (grab or retrieve failed),
`exitFrame` only resets `_enteredFrame`; every other field — frames
elapsed, fps estimate, start time, pending image filename, video-writer
state — is exactly as before. -/
theorem exitFrame_absent_noop (retr : Option Frame) (now : ℚ)
    (cap : CaptureDev) (s : CaptureState)
    (h : (frameProp retr s).1 = none) :
    exitFrame retr now cap s = { s with enteredFrame := false } := by
  obtain ⟨ch, ef, fr, im, vf, ve, vw, st, fe, fp⟩ := s
  simp only [frameProp] at h ⊢
  by_cases hc : ef = true ∧ fr = none
  · obtain ⟨he, hfr⟩ := hc
    subst he hfr
    simp only [exitFrame, frameProp] at *
    simp_all
  · simp only [exitFrame, frameProp] at *
    simp_all

/-- Witness for C3: a failed retrieve inside an entered cycle. -/
theorem exitFrame_absent_noop_witness :
    (frameProp none { initState with enteredFrame := true }).1 = none ∧
    exitFrame none 5 { fps := 30, width := 2, height := 2 }
        { initState with enteredFrame := true } =
      { initState with enteredFrame := false } :=
  ⟨rfl, exitFrame_absent_noop none 5 { fps := 30, width := 2, height := 2 }
    { initState with enteredFrame := true } rfl⟩

/-- C9: setting the channel to a new value stores it and clears the
cached frame (so the next `frame` access inside an entered cycle
re-retrieves); setting it to the current value changes nothing at all,
cached frame included. -/
theorem setChannel_spec (s : CaptureState) (v : ℤ) :
    (v ≠ s.channel →
      setChannel v s = { s with channel := v, frame := none } ∧
      (s.enteredFrame = true →
        ∀ retr, (frameProp retr (setChannel v s)).1 = retr)) ∧
    (v = s.channel → setChannel v s = s) := by
  constructor
  · intro hne
    have hne' : s.channel ≠ v := fun h => hne h.symm
    constructor
    · simp [setChannel, hne']
    · intro he retr
      simp [setChannel, hne', frameProp, he]
  · intro heq
    simp [setChannel, heq]

/-- Witness for C9: change the channel 0 → 1 (frame cache cleared, next
access re-retrieves), then set 1 again (state untouched). -/
theorem setChannel_spec_witness :
    ((1 : ℤ) ≠ initState.channel ∧
      setChannel 1 initState = { initState with channel := 1, frame := none }) ∧
    (let s1 := { initState with channel := 1, frame := some 7 };
      (1 : ℤ) = s1.channel ∧ setChannel 1 s1 = s1) :=
  ⟨⟨by decide, ((setChannel_spec initState 1).1 (by decide)).1⟩,
   ⟨rfl, (setChannel_spec { initState with channel := 1, frame := some 7 } 1).2 rfl⟩⟩

/-- C10: with an encoder already constructed, `startWritingVideo` with a
new filename leaves the encoder untouched; a subsequent `exitFrame`
appends the current frame to the OLD encoder; only `stopWritingVideo`
discards the handle, after which re-arming and exiting a frame (here with
a known positive source fps) builds a fresh encoder under the new
filename. -/
theorem startWritingVideo_keeps_open_encoder
    (s : CaptureState) (w : VideoWriter) (fn2 : String) (enc2 : ℤ)
    (f : Frame) (retr : Option Frame) (now : ℚ) (cap : CaptureDev)
    (hw : s.videoWriter = some w) (hf : s.frame = some f) :
    (startWritingVideo fn2 enc2 s).videoWriter = some w ∧
    (exitFrame retr now cap (startWritingVideo fn2 enc2 s)).videoWriter =
      some { w with frames := w.frames ++ [f] } ∧
    (stopWritingVideo (startWritingVideo fn2 enc2 s)).videoWriter = none ∧
    (0 < cap.fps →
      (exitFrame retr now cap
          (startWritingVideo fn2 enc2
            (stopWritingVideo s))).videoWriter =
        some { filename := fn2, encoding := enc2, fps := cap.fps,
               size := (cap.width, cap.height), frames := [f] }) := by
  obtain ⟨ch, ef, fr, im, vf, ve, vw, st, fe, fp⟩ := s
  dsimp only at hw hf
  subst hw
  subst hf
  refine ⟨rfl, ?_, rfl, ?_⟩
  · by_cases h0 : fe = 0 <;> cases im <;>
      simp [exitFrame, frameProp, startWritingVideo, writeVideoFrame,
        VideoWriter.write, h0]
  · intro hfps
    have hfps' : ¬ cap.fps ≤ 0 := not_le.mpr hfps
    by_cases h0 : fe = 0 <;> cases im <;>
      simp [exitFrame, frameProp, startWritingVideo, stopWritingVideo,
        writeVideoFrame, VideoWriter.write, h0, hfps']

/-- Witness for C10: a state holding an open encoder under "old.avi" and
a current frame; the new filename "new.avi" is ignored until the stop. -/
theorem startWritingVideo_keeps_open_encoder_witness :
    let w0 : VideoWriter :=
      { filename := "old.avi", encoding := 1, fps := 30,
        size := (2, 2), frames := [3] };
    let s0 : CaptureState :=
      { channel := 0, enteredFrame := true, frame := some 4,
        imageFilename := none, videoFilename := some "old.avi",
        videoEncoding := some 1, videoWriter := some w0,
        startTime := none, framesElapsed := 0, fpsEstimate := none };
    s0.videoWriter = some w0 ∧ s0.frame = some 4 ∧
    ((startWritingVideo "new.avi" 2 s0).videoWriter = some w0 ∧
      (exitFrame (some 9) 7 { fps := 30, width := 2, height := 2 }
          (startWritingVideo "new.avi" 2 s0)).videoWriter =
        some { w0 with frames := w0.frames ++ [4] } ∧
      (stopWritingVideo (startWritingVideo "new.avi" 2 s0)).videoWriter = none ∧
      (0 < (30 : ℚ) →
        (exitFrame (some 9) 7 { fps := 30, width := 2, height := 2 }
            (startWritingVideo "new.avi" 2 (stopWritingVideo s0))).videoWriter =
          some { filename := "new.avi", encoding := 2, fps := 30,
                 size := (2, 2), frames := [4] })) :=
  ⟨rfl, rfl,
    startWritingVideo_keeps_open_encoder _ _ "new.avi" 2 4 (some 9) 7
      { fps := 30, width := 2, height := 2 } rfl rfl⟩

/-- C4: every entry of the 256-entry lookup table lies in `[0, 255]`, for
any curve function — including one that is NaN/undefined outside its
control-point domain; out-of-range curve outputs are clamped at
table-build time, never propagated as an error. -/
theorem createLookupArray_entries_in_range (f : PyFloat → PyFloat) (x : ℚ)
    (hx : x ∈ (createLookupArray (some f) 256).getD []) :
    0 ≤ x ∧ x ≤ 255 := by
  simp only [createLookupArray, Option.getD_some, List.mem_map,
    List.mem_range] at hx
  obtain ⟨i, -, rfl⟩ := hx
  unfold pyMin pyMax
  rcases f (some (i : ℚ)) with - | y <;> dsimp only <;> split_ifs <;>
    constructor <;> push_cast at * <;> linarith

set_option maxRecDepth 4000 in
/-- Witness for C4: a curve that is NaN everywhere (as interp1d is off
its control-point domain) still yields an in-range table entry. -/
theorem createLookupArray_entries_in_range_witness :
    (0 : ℚ) ∈
      (createLookupArray (some (fun _ => (none : PyFloat))) 256).getD [] ∧
    ((0 : ℚ) ≤ 0 ∧ (0 : ℚ) ≤ 255) := by
  have h : pyMin (pyMax 0 ((fun _ => (none : PyFloat)) (some ((0 : ℕ) : ℚ))))
      (((256 : ℕ) : ℚ) - 1) = (0 : ℚ) := by
    norm_num [pyMax, pyMin]
  have hmem : (0 : ℕ) ∈ List.range 256 := List.mem_range.mpr (by norm_num)
  have hm : (0 : ℚ) ∈
      (createLookupArray (some (fun _ => (none : PyFloat))) 256).getD [] := by
    simp only [createLookupArray, Option.getD_some]
    exact (@List.mem_map ℕ ℚ 0
        (fun i => pyMin (pyMax 0 ((fun _ => (none : PyFloat)) (some (i : ℚ))))
          (((256 : ℕ) : ℚ) - 1))
        (List.range 256)).mpr ⟨0, hmem, h⟩
  exact ⟨hm, createLookupArray_entries_in_range _ 0 hm⟩

/-- C5: `createCompositeFunc f g` applies `g` then `f` when both are
present, collapses to the present one when the other is absent; and each
per-channel lookup table of `BGRFuncFilter` is built from
`channelFunc (valueFunc x)` — the shared value curve applied first. -/
theorem createCompositeFunc_spec {α : Type} (f g : α → α)
    (vF bF gF rF : PyFloat → PyFloat) :
    createCompositeFunc (some f) (some g) = some (fun x => f (g x)) ∧
    createCompositeFunc (some f) (none : Option (α → α)) = some f ∧
    createCompositeFunc (none : Option (α → α)) (some g) = some g ∧
    (mkBGRFuncFilter (some vF) (some bF) (some gF) (some rF)).bLookupArray =
      some ((List.range 256).map fun i =>
        pyMin (pyMax 0 (bF (vF (some (i : ℚ))))) 255) ∧
    (mkBGRFuncFilter (some vF) (some bF) (some gF) (some rF)).gLookupArray =
      some ((List.range 256).map fun i =>
        pyMin (pyMax 0 (gF (vF (some (i : ℚ))))) 255) ∧
    (mkBGRFuncFilter (some vF) (some bF) (some gF) (some rF)).rLookupArray =
      some ((List.range 256).map fun i =>
        pyMin (pyMax 0 (rF (vF (some (i : ℚ))))) 255) := by
  refine ⟨rfl, rfl, rfl, ?_, ?_, ?_⟩ <;>
    · simp only [mkBGRFuncFilter, createCompositeFunc, createLookupArray]
      norm_num

/-- C6 counterexample: two control points sharing the x-value 0 are NOT
treated as malformed — `createCurveFunc` still hands them to the
interpolator and returns a present curve, not an absent one. -/
theorem createCurveFunc_duplicate_x_not_absent :
    (createCurveFunc (some [((0 : ℚ), (0 : ℚ)), (0, 1)])).isSome = true :=
  rfl

/-- C6 (amended): the curve is absent exactly when the points are absent
or fewer than 2; duplicate x-values are not detected — such point lists
still produce a (present) interpolator object. -/
theorem createCurveFunc_absent_iff (pts : List (ℚ × ℚ)) :
    (createCurveFunc (some pts) = none ↔ pts.length < 2) ∧
    createCurveFunc none = none := by
  refine ⟨?_, rfl⟩
  by_cases h : pts.length < 2 <;> simp [createCurveFunc, h]

/-- C7: with `blurKsize < 3` the EdgeStroke output never depends on the
median-blur primitive (two primitive sets differing only in their blur
agree), the grayscale comes straight from the unblurred source, and — for
any kernel sizes whatsoever — the channels that get scaled by the
inverse-alpha map are those of the ORIGINAL source, not of the
blurred/grayscale intermediate. -/
theorem strokeEdges_spec
    (cvA cvB : CVPrims) (src : BGRImg) (blurKsize edgeKsize : ℕ)
    (hb : blurKsize < 3)
    (hcvt : cvB.cvtColorBGR2GRAY = cvA.cvtColorBGR2GRAY)
    (hlap : cvB.laplacian = cvA.laplacian) :
    strokeEdges cvB src blurKsize edgeKsize =
      strokeEdges cvA src blurKsize edgeKsize ∧
    strokeEdges cvA src blurKsize edgeKsize = (fun ch r c =>
      u8ofRat ((src ch r c : ℚ) * ((1 / 255) * (255 -
        (cvA.laplacian (cvA.cvtColorBGR2GRAY src) edgeKsize r c : ℚ))))) ∧
    (∀ (cvC : CVPrims) (b : ℕ),
      strokeEdges cvC src b edgeKsize = fun ch r c =>
        u8ofRat ((src ch r c : ℚ) * ((1 / 255) * (255 - (cvC.laplacian
          (if 3 ≤ b then cvC.cvtColorBGR2GRAY (cvC.medianBlur src b)
           else cvC.cvtColorBGR2GRAY src) edgeKsize r c : ℚ))))) := by
  have hb' : ¬ 3 ≤ blurKsize := by omega
  refine ⟨?_, ?_, ?_⟩
  · funext ch r c
    simp [strokeEdges, hb', hcvt, hlap]
  · funext ch r c
    simp [strokeEdges, hb']
  · intro cvC b
    funext ch r c
    by_cases h3 : 3 ≤ b <;> simp [strokeEdges, h3]

/-- Witness for C7: two primitive sets that agree except on the blur
(one is the identity blur, the other blacks the image out) give the same
EdgeStroke output at `blurKsize = 2`. -/
theorem strokeEdges_spec_witness :
    let cvA : CVPrims :=
      { medianBlur := fun img _ => img,
        cvtColorBGR2GRAY := fun img => img 0,
        laplacian := fun g _ => g };
    let cvB : CVPrims :=
      { medianBlur := fun _ _ => fun _ _ _ => 0,
        cvtColorBGR2GRAY := fun img => img 0,
        laplacian := fun g _ => g };
    let srcW : BGRImg := fun _ _ _ => 5;
    (2 : ℕ) < 3 ∧
    (strokeEdges cvB srcW 2 5 = strokeEdges cvA srcW 2 5 ∧
     strokeEdges cvA srcW 2 5 = (fun ch r c =>
       u8ofRat ((srcW ch r c : ℚ) * ((1 / 255) * (255 -
         (cvA.laplacian (cvA.cvtColorBGR2GRAY srcW) 5 r c : ℚ))))) ∧
     (∀ (cvC : CVPrims) (b : ℕ),
       strokeEdges cvC srcW b 5 = fun ch r c =>
         u8ofRat ((srcW ch r c : ℚ) * ((1 / 255) * (255 - (cvC.laplacian
           (if 3 ≤ b then cvC.cvtColorBGR2GRAY (cvC.medianBlur srcW b)
            else cvC.cvtColorBGR2GRAY srcW) 5 r c : ℚ)))))) :=
  ⟨by norm_num, strokeEdges_spec _ _ _ 2 5 (by norm_num) rfl rfl⟩

/-- Any reflected border index stays inside a nonempty extent. -/
theorem borderReflect101_lt (n : ℕ) (hn : 0 < n) (i : ℤ) :
    borderReflect101 n i < n :=
  lt_of_le_of_lt (Nat.min_le_left _ _) (Nat.sub_lt hn Nat.one_pos)

/-- C8: the sharpen kernel `[[-1,-1,-1],[-1,9,-1],[-1,-1,-1]]` (weights
summing to 1) leaves a uniform flat-colour buffer exactly unchanged at
every in-range pixel. -/
theorem sharpen_flat_invariant (src : Img) (v : ℕ) (hv : v ≤ 255)
    (hflat : ∀ r, r < src.h → ∀ c, c < src.w → src.pix r c = v)
    (r c : ℕ) (hr : r < src.h) (hc : c < src.w) :
    (sharpenApply src).pix r c = v := by
  have h0h : 0 < src.h := lt_of_le_of_lt (Nat.zero_le r) hr
  have h0w : 0 < src.w := lt_of_le_of_lt (Nat.zero_le c) hc
  have hread : ∀ a b : ℤ,
      src.pix (borderReflect101 src.h a) (borderReflect101 src.w b) = v :=
    fun a b =>
      hflat _ (borderReflect101_lt _ h0h a) _ (borderReflect101_lt _ h0w b)
  simp only [sharpenApply, filter2D, sharpenKernel]
  norm_num [List.range_succ, hread, satU8]
  omega

/-- Witness for C8: a 2×2 buffer uniformly filled with 7 is unchanged by
the sharpen filter at pixel (0, 0). -/
theorem sharpen_flat_invariant_witness :
    (7 : ℕ) ≤ 255 ∧ (0 : ℕ) < 2 ∧
    (sharpenApply { h := 2, w := 2, pix := fun _ _ => 7 }).pix 0 0 = 7 :=
  ⟨by norm_num, by norm_num,
    sharpen_flat_invariant { h := 2, w := 2, pix := fun _ _ => 7 } 7
      (by norm_num) (fun r _ c _ => rfl) 0 0 (by norm_num) (by norm_num)⟩

/-- While fewer than 20 frames have elapsed and the source's rate is not
positive, each cycle leaves the armed session in the pending shape: no
encoder, nothing written, counters advanced. -/
theorem runCycles_pending (cap : CaptureDev) (fn : String) (enc : ℤ)
    (f : ℕ → Frame) (t : ℕ → ℚ) (hfps : cap.fps ≤ 0) :
    ∀ n, n ≤ 19 →
      runCycles cap f t (startWritingVideo fn enc initState) n =
        .ok (pendingAt fn enc t n) := by
  intro n
  induction n with
  | zero =>
    intro _
    simp [runCycles, pendingAt, pendingStart, pendingFps, startWritingVideo,
      initState]
  | succ n ih =>
    intro hn
    have hstep : runCycles cap f t (startWritingVideo fn enc initState)
        (n + 1) =
        Except.bind
          (runCycles cap f t (startWritingVideo fn enc initState) n)
          (cycle cap true (some (f n)) (t n)) := rfl
    rw [hstep, ih (by omega)]
    have hlt : n + 1 < 20 := by omega
    rcases Nat.eq_zero_or_pos n with h0 | h0
    · subst h0
      simp [Except.bind, cycle, enterFrame, exitFrame, frameProp,
        writeVideoFrame, pendingAt, pendingStart, pendingFps, hfps]
    · have hne : n ≠ 0 := by omega
      have hle : ¬ n + 1 ≤ 1 := by omega
      simp [Except.bind, cycle, enterFrame, exitFrame, frameProp,
        writeVideoFrame, pendingAt, pendingStart, pendingFps, hfps, hne,
        hle, hlt]

/-- The 20th cycle finds 20 frames elapsed, so the encoder is finally
constructed — with the accumulated estimate as its rate — and the 20th
frame (index 19) is the first and only one appended. -/
theorem runCycles_constructs (cap : CaptureDev) (fn : String) (enc : ℤ)
    (f : ℕ → Frame) (t : ℕ → ℚ) (hfps : cap.fps ≤ 0) :
    runCycles cap f t (startWritingVideo fn enc initState) 20 =
      .ok
        { channel := 0, enteredFrame := false, frame := none,
          imageFilename := none, videoFilename := some fn,
          videoEncoding := some enc,
          videoWriter := some (builtWriter fn enc cap t f),
          startTime := some (t 0), framesElapsed := 20,
          fpsEstimate := some ((19 : ℚ) / (t 19 - t 0)) } := by
  have hstep : runCycles cap f t (startWritingVideo fn enc initState) 20 =
      Except.bind
        (runCycles cap f t (startWritingVideo fn enc initState) 19)
        (cycle cap true (some (f 19)) (t 19)) := rfl
  rw [hstep, runCycles_pending cap fn enc f t hfps 19 (by norm_num)]
  simp [Except.bind, cycle, enterFrame, exitFrame, frameProp,
    writeVideoFrame, pendingAt, pendingStart, pendingFps, hfps,
    VideoWriter.write, builtWriter]

/-- C1: recording armed from frame 0 on a source whose reported rate is
not positive: every one of the first 19 cycles (frames 0–18) ends with no
encoder constructed and nothing appended (frames dropped, not buffered);
the cycle for frame 19 constructs the encoder with the accumulated
frame-rate estimate and appends frame 19 itself, and only it.  The
strictly-advancing-clock hypothesis confines the statement to executions
on which the model's total rational division agrees with Python's float
division (which would raise on a zero elapsed time). -/
theorem lazy_writer_unknown_rate
    (cap : CaptureDev) (fn : String) (enc : ℤ) (f : ℕ → Frame) (t : ℕ → ℚ)
    (hfps : cap.fps ≤ 0) (_hmono : ∀ k, 0 < k → k ≤ 19 → t 0 < t k) :
    (∀ k, k ≤ 18 → ∃ s,
      runCycles cap f t (startWritingVideo fn enc initState) (k + 1) =
        .ok s ∧
      s.videoWriter = none ∧ s.framesElapsed = k + 1) ∧
    (∃ s,
      runCycles cap f t (startWritingVideo fn enc initState) 20 = .ok s ∧
      s.fpsEstimate = some ((19 : ℚ) / (t 19 - t 0)) ∧
      s.videoWriter = some (builtWriter fn enc cap t f)) := by
  constructor
  · intro k hk
    exact ⟨pendingAt fn enc t (k + 1),
      runCycles_pending cap fn enc f t hfps (k + 1) (by omega), rfl, rfl⟩
  · exact ⟨_, runCycles_constructs cap fn enc f t hfps, rfl, rfl⟩

/-- Witness for C1: a zero-fps source, frames numbered by index, the
clock reading `k` at cycle `k`. -/
theorem lazy_writer_unknown_rate_witness :
    ({ fps := 0, width := 640, height := 480 } : CaptureDev).fps ≤ 0 ∧
    ((∀ k, k ≤ 18 → ∃ s,
      runCycles { fps := 0, width := 640, height := 480 } (fun k => k)
          (fun k => (k : ℚ)) (startWritingVideo "out.avi" 1 initState)
          (k + 1) = .ok s ∧
      s.videoWriter = none ∧ s.framesElapsed = k + 1) ∧
    (∃ s,
      runCycles { fps := 0, width := 640, height := 480 } (fun k => k)
          (fun k => (k : ℚ)) (startWritingVideo "out.avi" 1 initState) 20 =
        .ok s ∧
      s.fpsEstimate = some ((19 : ℚ) / ((19 : ℚ) - (0 : ℚ))) ∧
      s.videoWriter = some (builtWriter "out.avi" 1
        { fps := 0, width := 640, height := 480 } (fun k => (k : ℚ))
        (fun k => k)))) :=
  ⟨by norm_num,
    lazy_writer_unknown_rate { fps := 0, width := 640, height := 480 }
      "out.avi" 1 (fun k => k) (fun k => (k : ℚ)) (by norm_num)
      (by intro k hk _; show ((0 : ℕ) : ℚ) < ((k : ℕ) : ℚ); exact_mod_cast hk)⟩

end Cameo
